import Mathlib

/-!
# Verification of the notebook-tool core (`src/main.py`)

Shallow embedding of the Jupyter-notebook MCP tool: the output-summarization
engine (`_format_text_output`, `_format_image_output`, `_format_table_output`,
`get_formatted_content`), the full-payload fetch (`get_full_output`) and the
structural editor (`edit_cell`, `add_cell`, `delete_cell`, `merge_cells`).

Modelling conventions:
* A notebook is its ordered list of cells (`List Cell`); file I/O
  (`_read_notebook` / `_write_notebook`) is external and modelled as
  succeeding, so each tool is a pure function from the loaded cell list
  (and its arguments) to a result record whose `doc` field is the cell
  list persisted on disk after the call (equal to the input when the tool
  fails validation, since the code returns before writing).
* Caller-supplied indices are Python `int`s, embedded as `Int`.
* Cells and outputs are duck-typed dicts in the source; they are embedded
  as structures with a string `cell_type` / `output_type` tag, and the
  mime-type dictionary of a `display_data` / `execute_result` output as an
  association list in insertion order.
* Python string operations used by the code (`in`, slicing, `strip`,
  `capitalize`, `%`/format padding) are given explicit character-list
  models; `re` searches are modelled by scanners specialised to the exact
  patterns the code uses (see below at each definition).
-/

set_option maxRecDepth 40000

/-- Constant `MAX_TEXT_OUTPUT_LENGTH` from `src/main.py`. -/
def MAX_TEXT_OUTPUT_LENGTH : Nat := 500

/-- Constant `MAX_TABLE_ROWS` from `src/main.py`. -/
def MAX_TABLE_ROWS : Nat := 5

/-- Constant `TRUNCATION_MARKER` from `src/main.py`. -/
def TRUNCATION_MARKER : String := "[TRUNCATED]"

/-- Constant `HINT_FULL_OUTPUT` from `src/main.py`. -/
def HINT_FULL_OUTPUT : String := "Use `get_full_output` for full content."

/-- One notebook output, as the duck-typed `nbformat` dict: an
`output_type` tag plus the fields the code reads (`name`/`text` for
streams, `data` for results, `ename`/`evalue`/`traceback` for errors).
Fields not belonging to the tagged kind are ignored by every operation. -/
structure Output where
  output_type : String
  name : String
  text : String
  data : List (String × String)
  ename : String
  evalue : String
  traceback : List String
deriving DecidableEq, Repr

/-- Build a stream output. -/
def Output.mkStream (name text : String) : Output :=
  ⟨"stream", name, text, [], "", "", []⟩

/-- Build a `display_data` / `execute_result` output from its mime dict. -/
def Output.mkData (output_type : String) (data : List (String × String)) : Output :=
  ⟨output_type, "", "", data, "", "", []⟩

/-- Build an error output. -/
def Output.mkError (ename evalue : String) (traceback : List String) : Output :=
  ⟨"error", "", "", [], ename, evalue, traceback⟩

/-- One notebook cell: `cell_type` tag ("code" / "markdown"), `source`,
and the `outputs` list (empty for markdown cells as produced by nbformat). -/
structure Cell where
  cell_type : String
  source : String
  outputs : List Output
deriving DecidableEq, Repr

instance : Inhabited Cell := ⟨⟨"", "", []⟩⟩

/-- `new_code_cell(source)` of `nbformat.v4`: a code cell with no outputs. -/
def new_code_cell (source : String) : Cell := ⟨"code", source, []⟩

/-- `new_markdown_cell(source)` of `nbformat.v4`: a markdown cell. -/
def new_markdown_cell (source : String) : Cell := ⟨"markdown", source, []⟩

/-- Python key membership `k in d` on the mime dict. -/
def hasKey (data : List (String × String)) (k : String) : Bool :=
  (data.lookup k).isSome

/-- Python `d[k]` on the mime dict (callers only use it after `k in d`). -/
def getKey (data : List (String × String)) (k : String) : String :=
  (data.lookup k).getD ""

/-- Python substring test `pat in s` on character lists. -/
def charsIn (pat : List Char) : List Char → Bool
  | [] => pat.isEmpty
  | c :: t => pat.isPrefixOf (c :: t) || charsIn pat t

/-- Python substring test `pat in s` on strings. -/
def strIn (pat s : String) : Bool := charsIn pat.data s.data

/-- Python whitespace for `str.strip()` (ASCII part: space, tab, newline,
carriage return, vertical tab, form feed). -/
def pyIsSpace (c : Char) : Bool :=
  c = ' ' || c = '\t' || c = '\n' || c = '\x0d' || c = '\x0b' || c = '\x0c'

/-- Python slicing `s[:n]`: the first `n` characters (code points). -/
def pyTake (s : String) (n : Nat) : String := String.mk (s.data.take n)

/-- Python `s.strip()`: remove leading and trailing whitespace. -/
def pyStrip (s : String) : String :=
  String.mk (((s.data.dropWhile pyIsSpace).reverse.dropWhile pyIsSpace).reverse)

/-- Python `s.capitalize()`: first character upper-cased, rest lower-cased. -/
def pyCapitalize (s : String) : String :=
  match s.data with
  | [] => ""
  | c :: t => String.mk (c.toUpper :: t.map Char.toLower)

/-- Python `format(n, "03d")` for a nonnegative value, as used by the
f-string `IMG_ID{cell_idx:03d}{output_idx:03d}`: decimal digits,
zero-padded on the left to width 3. -/
def pad3 (n : Nat) : String :=
  let s := toString n
  if s.length < 3 then String.mk (List.replicate (3 - s.length) '0' ++ s.data) else s

/-- `_format_text_output(text_content, cell_idx, output_idx)` from
`src/main.py` lines 38-41. -/
def _format_text_output (text_content : String) (cell_idx output_idx : Nat) : String :=
  if text_content.length > MAX_TEXT_OUTPUT_LENGTH then
    "Text: " ++ pyTake text_content MAX_TEXT_OUTPUT_LENGTH ++ "... " ++ TRUNCATION_MARKER
      ++ " " ++ HINT_FULL_OUTPUT ++ " (cell " ++ toString cell_idx
      ++ " [1-based], output " ++ toString output_idx ++ " [1-based])"
  else
    "Text: " ++ text_content

/-- `_format_image_output(cell_idx, output_idx)` from `src/main.py`
lines 44-45. -/
def _format_image_output (cell_idx output_idx : Nat) : String :=
  "Image (PNG) - IMG_ID" ++ pad3 cell_idx ++ pad3 output_idx ++ " " ++ HINT_FULL_OUTPUT
    ++ " (cell " ++ toString cell_idx ++ " [1-based], output " ++ toString output_idx
    ++ " [1-based])"

/-!
## Regex model for `_format_table_output`

The code uses three regex shapes, all non-greedy and (for the tag scans)
`DOTALL | IGNORECASE`:

* `re.search(r'<LIT.*?>(.*?)</LIT>', s)`: with a lazy `.*?`, the engine
  takes the leftmost occurrence of `<LIT`, the first `>` after it, and the
  first `</LIT>` after that `>`; backtracking to a later `>` or a later
  `<LIT` can never succeed when this fails, because the remaining text
  only shrinks.  So the search reduces to three sequential first-occurrence
  scans, which is how it is modelled here.
* `re.findall` of the same shape: the above repeated from the end of each
  match (non-overlapping).
* `re.sub(r'<.*?>', '', h)` (no DOTALL): at each `<`, drop through the
  first `>` that appears before any newline; otherwise keep the `<`.
-/

/-- Case-insensitive `isPrefixOf` (the `re.IGNORECASE` flag; patterns are
ASCII). -/
def ciIsPrefix : List Char → List Char → Bool
  | [], _ => true
  | _ :: _, [] => false
  | p :: ps, c :: cs => (p.toLower == c.toLower) && ciIsPrefix ps cs

/-- Scan to the first case-insensitive occurrence of `pat`; return the
suffix after it. -/
def dropAfterLit (pat : List Char) : List Char → Option (List Char)
  | [] => if pat.isEmpty then some [] else none
  | c :: t =>
    if ciIsPrefix pat (c :: t) then some ((c :: t).drop pat.length)
    else dropAfterLit pat t

/-- Scan to the first `'>'`; return the suffix after it (the lazy `.*?>`
under DOTALL). -/
def dropAfterGt : List Char → Option (List Char)
  | [] => none
  | c :: t => if c = '>' then some t else dropAfterGt t

/-- Lazy capture `(.*?)` up to the first case-insensitive occurrence of
`pat`; returns the capture and the suffix after `pat`. -/
def captureUntilLit (pat : List Char) : List Char → Option (List Char × List Char)
  | [] => if pat.isEmpty then some ([], []) else none
  | c :: t =>
    if ciIsPrefix pat (c :: t) then some ([], (c :: t).drop pat.length)
    else
      match captureUntilLit pat t with
      | some (cap, rest) => some (c :: cap, rest)
      | none => none

/-- One match of `LIT1 .*? > (.*?) LIT2`: the capture group and the text
after the whole match. -/
def matchStep (openLit closeLit : List Char) (s : List Char) : Option (List Char × List Char) :=
  (dropAfterLit openLit s).bind fun t1 =>
  (dropAfterGt t1).bind fun t2 =>
  captureUntilLit closeLit t2

/-- `re.search(r'<LIT1.*?>(.*?)</LIT2>', s, re.DOTALL | re.IGNORECASE)`,
returning the capture group of the first match. -/
def searchLazyCapture (openLit closeLit : String) (s : String) : Option String :=
  (matchStep openLit.data closeLit.data s.data).map fun pr => String.mk pr.1

/-- Fuel-driven loop for `findallLazy`.  Each match consumes at least one
character (the open literals used are nonempty), so fuel `length + 1`
never runs out. -/
def findallGo (openLit closeLit : List Char) : Nat → List Char → List String
  | 0, _ => []
  | fuel + 1, s =>
    match matchStep openLit closeLit s with
    | none => []
    | some (cap, rest) => String.mk cap :: findallGo openLit closeLit fuel rest

/-- `re.findall(r'<LIT1.*?>(.*?)</LIT2>', s, re.DOTALL | re.IGNORECASE)`:
all non-overlapping matches' capture groups, left to right. -/
def findallLazy (openLit closeLit : String) (s : String) : List String :=
  findallGo openLit.data closeLit.data (s.data.length + 1) s.data

/-- Drop through the first `'>'` reached before any newline (one lazy
`<.*?>` match without DOTALL); `none` when there is no such match. -/
def dropThroughGt : List Char → Option (List Char)
  | [] => none
  | c :: t => if c = '\n' then none else if c = '>' then some t else dropThroughGt t

/-- Fuel-driven loop for `stripTags`; each step consumes at least one
character, so fuel `length + 1` never runs out (`dropThroughGt` returns a
strict suffix, see `dropThroughGt_length`). -/
def stripTagsGo : Nat → List Char → List Char
  | 0, _ => []
  | _, [] => []
  | fuel + 1, c :: t =>
    if c = '<' then
      match dropThroughGt t with
      | some r => stripTagsGo fuel r
      | none => c :: stripTagsGo fuel t
    else c :: stripTagsGo fuel t

/-- `re.sub(r'<.*?>', '', h)`: remove every non-greedy `<...>` tag (dot
not matching newline). -/
def stripTags (s : List Char) : List Char := stripTagsGo (s.length + 1) s

/-- Model of Python `html.unescape` restricted to the five predefined XML
character references (`&amp;` `&lt;` `&gt;` `&quot;` `&#39;`); any other
ampersand sequence is left unchanged.  (The library resolves the full
HTML named-entity table, which is not modelled; the theorems below only
apply it to text free of `&`.)  Fuel-driven loop, fuel never runs out at
`length + 1`. -/
def unescapeGo : Nat → List Char → List Char
  | 0, _ => []
  | _, [] => []
  | fuel + 1, c :: t =>
    if c = '&' then
      if "amp;".data.isPrefixOf t then '&' :: unescapeGo fuel (t.drop 4)
      else if "lt;".data.isPrefixOf t then '<' :: unescapeGo fuel (t.drop 3)
      else if "gt;".data.isPrefixOf t then '>' :: unescapeGo fuel (t.drop 3)
      else if "quot;".data.isPrefixOf t then '\x22' :: unescapeGo fuel (t.drop 5)
      else if "#39;".data.isPrefixOf t then '\x27' :: unescapeGo fuel (t.drop 4)
      else c :: unescapeGo fuel t
    else c :: unescapeGo fuel t

/-- `unescapeGo` with always-sufficient fuel (each step consumes at least
one character). -/
def unescapeChars (l : List Char) : List Char := unescapeGo (l.length + 1) l

/-- Python `html.unescape` on strings (restricted model, see
`unescapeChars`). -/
def htmlUnescape (s : String) : String := String.mk (unescapeChars s.data)

/-- The per-cell treatment `unescape(re.sub(r'<.*?>', '', h)).strip()`
applied to each `th`/`td` capture in `_format_table_output`. -/
def cleanCell (h : String) : String :=
  pyStrip (htmlUnescape (String.mk (stripTags h.data)))

/-- One markdown pipe-row, `"| " + " | ".join(cleaned cells) + " |"`. -/
def pipeRow (cells : List String) : String :=
  "| " ++ String.intercalate " | " (cells.map cleanCell) ++ " |"

/-- The dash separator row `"|" + "---|" * n`. -/
def dashSeparatorRow (n : Nat) : String :=
  "|" ++ String.join (List.replicate n "---|")

/-- Lowercase hexadecimal digit, for `json.dumps` unicode escapes. -/
def hexDigit (n : Nat) : Char :=
  if n < 10 then Char.ofNat (48 + n) else Char.ofNat (87 + n)

/-- Four lowercase hexadecimal digits of `n % 0x10000`. -/
def hex4 (n : Nat) : List Char :=
  [hexDigit (n / 4096 % 16), hexDigit (n / 256 % 16), hexDigit (n / 16 % 16), hexDigit (n % 16)]

/-- `json.dumps` escaping of one character (default `ensure_ascii=True`):
the two-character escapes, `\uXXXX` for other control or non-ASCII
characters, surrogate pairs above the BMP. -/
def jsonEscapeChar (c : Char) : List Char :=
  if c = '\x22' then ['\\', '\x22']
  else if c = '\\' then ['\\', '\\']
  else if c = '\n' then ['\\', 'n']
  else if c = '\t' then ['\\', 't']
  else if c = '\x0d' then ['\\', 'r']
  else if c = '\x08' then ['\\', 'b']
  else if c = '\x0c' then ['\\', 'f']
  else if c.val < 0x20 || 0x7e < c.val then
    if c.val < 0x10000 then '\\' :: 'u' :: hex4 c.val.toNat
    else
      let v := c.val.toNat - 0x10000
      '\\' :: 'u' :: hex4 (0xd800 + v / 1024) ++ '\\' :: 'u' :: hex4 (0xdc00 + v % 1024)
  else [c]

/-- `json.dumps` of one string value. -/
def jsonQuote (s : String) : String :=
  "\x22" ++ String.mk (s.data.map jsonEscapeChar).flatten ++ "\x22"

/-- `json.dumps(output.data)` on the mime dict, keys in insertion order
(default separators `", "` and `": "`). -/
def jsonDumps (data : List (String × String)) : String :=
  "\x7b" ++ String.intercalate ", " (data.map fun kv => jsonQuote kv.1 ++ ": " ++ jsonQuote kv.2)
    ++ "\x7d"

/-- `_format_table_output(html_content, cell_idx, output_idx)` from
`src/main.py` lines 48-89. -/
def _format_table_output (html_content : String) (cell_idx output_idx : Nat) : String :=
  let header_rows : List String :=
    match searchLazyCapture "<thead" "</thead>" html_content with
    | none => []
    | some header_content =>
      let th_matches := findallLazy "<th" "</th>" header_content
      if th_matches.isEmpty then []
      else [pipeRow th_matches, dashSeparatorRow th_matches.length]
  let tr_matches : List String :=
    match searchLazyCapture "<tbody" "</tbody>" html_content with
    | none => []
    | some body_content => findallLazy "<tr" "</tr>" body_content
  let body_rows : List String :=
    (tr_matches.take MAX_TABLE_ROWS).filterMap fun tr =>
      let td_matches := findallLazy "<td" "</td>" tr
      if td_matches.isEmpty then none else some (pipeRow td_matches)
  let table_rows := header_rows ++ body_rows
  if table_rows.isEmpty then
    "HTML content (truncated): " ++ pyTake html_content MAX_TEXT_OUTPUT_LENGTH ++ "... "
      ++ TRUNCATION_MARKER ++ " " ++ HINT_FULL_OUTPUT ++ " (cell " ++ toString cell_idx
      ++ " [1-based], output " ++ toString output_idx ++ " [1-based])"
  else
    let summary := String.intercalate "\n" table_rows
    let summary :=
      if tr_matches.length > MAX_TABLE_ROWS then summary ++ "\n... " ++ TRUNCATION_MARKER
      else summary
    "Table (HTML): \n```markdown\n" ++ summary ++ "\n```\n" ++ HINT_FULL_OUTPUT
      ++ " (cell " ++ toString cell_idx ++ " [1-based], output " ++ toString output_idx
      ++ " [1-based])"

/-- The dispatch on `output.output_type` inside the rendering loop of
`get_formatted_content` (`src/main.py` lines 113-129), producing the
summary for one output.  `cell_no` and `output_no` are the 1-based values
`i + 1`, `j + 1` the loop passes.  An unrecognized tag leaves the
initialized empty string. -/
def outputSummary (output : Output) (cell_no output_no : Nat) : String :=
  if output.output_type == "stream" then
    _format_text_output output.text cell_no output_no
  else if output.output_type == "display_data" || output.output_type == "execute_result" then
    if hasKey output.data "image/png" then
      _format_image_output cell_no output_no
    else if hasKey output.data "text/html"
        && (strIn "<table" (getKey output.data "text/html")
            || strIn "<TABLE" (getKey output.data "text/html")) then
      _format_table_output (getKey output.data "text/html") cell_no output_no
    else if hasKey output.data "text/plain" then
      _format_text_output (getKey output.data "text/plain") cell_no output_no
    else
      "Other data type: " ++ String.intercalate ", " (output.data.map Prod.fst) ++ " "
        ++ HINT_FULL_OUTPUT ++ " (cell " ++ toString cell_no ++ ", output "
        ++ toString output_no ++ ")"
  else if output.output_type == "error" then
    "Error: " ++ output.ename ++ ": " ++ output.evalue ++ " " ++ HINT_FULL_OUTPUT
      ++ " (cell " ++ toString cell_no ++ ", output " ++ toString output_no ++ ")"
  else ""

/-- The line appended for one output,
`formatted_content.append(f"- {output_summary}\n")` (line 130) — appended
unconditionally, even when the summary is empty. -/
def outputLine (output : Output) (cell_no output_no : Nat) : String :=
  "- " ++ outputSummary output cell_no output_no ++ "\n"

/-- The text `get_formatted_content` appends for the cell at 0-based
position `i`: header, fenced stripped source, and (for code cells with
outputs) the output section, followed by a blank line. -/
def formatCell (i : Nat) (cell : Cell) : String :=
  "[[Cell " ++ toString (i + 1) ++ " - " ++ pyCapitalize cell.cell_type ++ "]]\n"
    ++ "```\n" ++ pyStrip cell.source ++ "\n```\n"
    ++ (if cell.cell_type == "code" && !cell.outputs.isEmpty then
          "[[Cell " ++ toString (i + 1) ++ " - Output]]\n"
            ++ String.join (cell.outputs.enum.map fun jo => outputLine jo.2 (i + 1) (jo.1 + 1))
        else "")
    ++ "\n"

/-- `get_formatted_content(filepath)` from `src/main.py` lines 92-132,
restricted to its `formatted_content` field on a successfully loaded
notebook (file reading is external; on a read error the digest is empty
and this function is never reached). -/
def get_formatted_content (cells : List Cell) : String :=
  String.join (cells.enum.map fun ic => formatCell ic.1 ic.2)

/-- The `full_output_data` value of `get_full_output`: either a string
payload or the structured error record
`{"ename": ..., "evalue": ..., "traceback": ...}`. -/
inductive FullData where
  | str : String → FullData
  | errObj : String → String → List String → FullData
deriving DecidableEq, Repr

/-- The result dict of `get_full_output`. -/
structure FetchResult where
  full_output_data : Option FullData
  mime_type : Option String
  error : Option String
deriving DecidableEq, Repr

instance : Inhabited Output := ⟨⟨"", "", "", [], "", "", []⟩⟩

/-- `get_full_output(filepath, cell_index, output_index, type_hint)` from
`src/main.py` lines 135-192, on a successfully loaded notebook. -/
def get_full_output (cells : List Cell) (cell_index output_index : Int)
    (type_hint : Option String) : FetchResult :=
  let adjusted_cell_index := cell_index - 1
  let adjusted_output_index := output_index - 1
  if ¬(0 ≤ adjusted_cell_index ∧ adjusted_cell_index < cells.length) then
    ⟨none, none, some ("Cell index " ++ toString cell_index
      ++ " out of bounds. Please use a 1-based index.")⟩
  else
    let cell := cells.getD adjusted_cell_index.toNat default
    if cell.cell_type ≠ "code" ∨ cell.outputs = [] then
      ⟨none, none, some ("Cell " ++ toString cell_index
        ++ " is not a code cell or has no outputs.")⟩
    else if ¬(0 ≤ adjusted_output_index ∧ adjusted_output_index < cell.outputs.length) then
      ⟨none, none, some ("Output index " ++ toString output_index
        ++ " out of bounds for cell " ++ toString cell_index
        ++ ". Please use a 1-based index.")⟩
    else
      let output := cell.outputs.getD adjusted_output_index.toNat default
      if output.output_type == "stream" then
        ⟨some (.str output.text), some ("text/" ++ output.name), none⟩
      else if output.output_type == "display_data" || output.output_type == "execute_result" then
        if type_hint = some "image" ∧ hasKey output.data "image/png" then
          ⟨some (.str (getKey output.data "image/png")), some "image/png", none⟩
        else if type_hint = some "text" ∧ hasKey output.data "text/plain" then
          ⟨some (.str (getKey output.data "text/plain")), some "text/plain", none⟩
        else if type_hint = some "table" ∧ hasKey output.data "text/html" then
          ⟨some (.str (getKey output.data "text/html")), some "text/html", none⟩
        else if hasKey output.data "text/plain" then
          ⟨some (.str (getKey output.data "text/plain")), some "text/plain", none⟩
        else if hasKey output.data "image/png" then
          ⟨some (.str (getKey output.data "image/png")), some "image/png", none⟩
        else
          ⟨some (.str (jsonDumps output.data)), some "application/json", none⟩
      else if output.output_type == "error" then
        ⟨some (.errObj output.ename output.evalue output.traceback), some "application/json", none⟩
      else
        ⟨none, none, none⟩

/-- Result dict of a mutating tool.  `doc` is the notebook persisted on
disk after the call: the code returns before `_write_notebook` on any
validation failure, so `doc` equals the input there, and the write itself
is modelled as succeeding. -/
structure OpResult where
  success : Bool
  doc : List Cell
  error : Option String
deriving DecidableEq, Repr

/-- Result dict of `add_cell` (adds `new_cell_actual_index`). -/
structure AddResult where
  success : Bool
  doc : List Cell
  new_cell_actual_index : Int
  error : Option String
deriving DecidableEq, Repr

/-- `edit_cell(filepath, cell_index, new_source_content)` from
`src/main.py` lines 195-220: replace the source, clearing outputs when the
cell is a code cell. -/
def edit_cell (cells : List Cell) (cell_index : Int) (new_source_content : String) : OpResult :=
  let adjusted_cell_index := cell_index - 1
  if ¬(0 ≤ adjusted_cell_index ∧ adjusted_cell_index < cells.length) then
    ⟨false, cells, some ("Cell index " ++ toString cell_index
      ++ " out of bounds. Please use a 1-based index.")⟩
  else
    let i := adjusted_cell_index.toNat
    let cell := cells.getD i default
    ⟨true,
     cells.set i ⟨cell.cell_type, new_source_content,
       if cell.cell_type == "code" then [] else cell.outputs⟩,
     none⟩

/-- `add_cell(filepath, cell_index, cell_type, source_content)` from
`src/main.py` lines 223-251.  (`list.insert` past the validated bound
cannot occur, so it coincides with `List.insertIdx`.) -/
def add_cell (cells : List Cell) (cell_index : Int) (cell_type : String)
    (source_content : String) : AddResult :=
  let adjusted_cell_index := cell_index - 1
  if ¬(0 ≤ adjusted_cell_index ∧ adjusted_cell_index ≤ cells.length) then
    ⟨false, cells, -1, some ("Cell index " ++ toString cell_index
      ++ " out of bounds for adding. Please use a 1-based index.")⟩
  else if cell_type == "code" then
    ⟨true, cells.insertIdx adjusted_cell_index.toNat (new_code_cell source_content),
     cell_index, none⟩
  else if cell_type == "markdown" then
    ⟨true, cells.insertIdx adjusted_cell_index.toNat (new_markdown_cell source_content),
     cell_index, none⟩
  else
    ⟨false, cells, -1, some ("Invalid cell type: " ++ cell_type
      ++ ". Must be 'code' or 'markdown'.")⟩

/-- `delete_cell(filepath, cell_index)` from `src/main.py` lines 254-275. -/
def delete_cell (cells : List Cell) (cell_index : Int) : OpResult :=
  let adjusted_cell_index := cell_index - 1
  if ¬(0 ≤ adjusted_cell_index ∧ adjusted_cell_index < cells.length) then
    ⟨false, cells, some ("Cell index " ++ toString cell_index
      ++ " out of bounds. Please use a 1-based index.")⟩
  else
    ⟨true, cells.eraseIdx adjusted_cell_index.toNat, none⟩

/-- The merged cell built by `merge_cells` (`src/main.py` lines 305-321):
concatenated source joined by one newline; a code cell with cleared
outputs when both inputs are code cells, otherwise a markdown cell. -/
def mergedCellOf (cell1 cell2 : Cell) : Cell :=
  let merged_source := cell1.source ++ "\n" ++ cell2.source
  if cell1.cell_type == "code" && cell2.cell_type == "code" then
    ⟨"code", merged_source, []⟩
  else
    new_markdown_cell merged_source

/-- `merge_cells(filepath, cell_index1, cell_index2)` from `src/main.py`
lines 278-331: the merged cell replaces the first cell, the second is
deleted. -/
def merge_cells (cells : List Cell) (cell_index1 cell_index2 : Int) : OpResult :=
  let adj_idx1 := cell_index1 - 1
  let adj_idx2 := cell_index2 - 1
  if ¬(0 ≤ adj_idx1 ∧ adj_idx1 < cells.length) ∨ ¬(0 ≤ adj_idx2 ∧ adj_idx2 < cells.length) then
    ⟨false, cells, some ("One or both cell indices (" ++ toString cell_index1 ++ ", "
      ++ toString cell_index2 ++ ") are out of bounds.")⟩
  else if adj_idx2 ≠ adj_idx1 + 1 then
    ⟨false, cells, some ("Cells are not consecutive. Cell " ++ toString cell_index2
      ++ " is not immediately after cell " ++ toString cell_index1 ++ ".")⟩
  else
    let cell1 := cells.getD adj_idx1.toNat default
    let cell2 := cells.getD adj_idx2.toNat default
    ⟨true, (cells.set adj_idx1.toNat (mergedCellOf cell1 cell2)).eraseIdx adj_idx2.toNat, none⟩

/-- The payload selection policy for `display_data` / `execute_result`
outputs as the spec words it (C8): honor a matching type hint
(`image` → `image/png`, `text` → `text/plain`, `table` → `text/html`),
otherwise fall through to `text/plain`, then `image/png`, then a JSON
encoding of all payload entries.  Stated from the spec to be compared
with `get_full_output`. -/
def specSelectionPolicy (data : List (String × String)) (hint : Option String) :
    Option FullData × Option String :=
  if hint = some "image" ∧ hasKey data "image/png" then
    (some (FullData.str (getKey data "image/png")), some "image/png")
  else if hint = some "text" ∧ hasKey data "text/plain" then
    (some (FullData.str (getKey data "text/plain")), some "text/plain")
  else if hint = some "table" ∧ hasKey data "text/html" then
    (some (FullData.str (getKey data "text/html")), some "text/html")
  else if hasKey data "text/plain" then
    (some (FullData.str (getKey data "text/plain")), some "text/plain")
  else if hasKey data "image/png" then
    (some (FullData.str (getKey data "image/png")), some "image/png")
  else
    (some (FullData.str (jsonDumps data)), some "application/json")

/-- A well-formed HTML table with a two-column header and eight body
rows, used as the concrete witness input for the table extractor. -/
def tableHtml8 : String :=
  "<table><thead><tr><th>A</th><th>B</th></tr></thead><tbody>"
    ++ "<tr><td>a1</td><td>b1</td></tr><tr><td>a2</td><td>b2</td></tr>"
    ++ "<tr><td>a3</td><td>b3</td></tr><tr><td>a4</td><td>b4</td></tr>"
    ++ "<tr><td>a5</td><td>b5</td></tr><tr><td>a6</td><td>b6</td></tr>"
    ++ "<tr><td>a7</td><td>b7</td></tr><tr><td>a8</td><td>b8</td></tr>"
    ++ "</tbody></table>"

/-- The row strings the body scan collects from `tableHtml8`. -/
def tableHtml8Rows : List String :=
  ["<td>a1</td><td>b1</td>", "<td>a2</td><td>b2</td>", "<td>a3</td><td>b3</td>",
   "<td>a4</td><td>b4</td>", "<td>a5</td><td>b5</td>", "<td>a6</td><td>b6</td>",
   "<td>a7</td><td>b7</td>", "<td>a8</td><td>b8</td>"]

/-!
## Helper lemmas
-/

/-- `dropThroughGt` returns a strict suffix (it consumes at least the
closing angle bracket), which justifies the `length + 1` fuel of
`stripTagsGo`. -/
theorem dropThroughGt_length (l : List Char) :
    ∀ r, dropThroughGt l = some r → r.length < l.length := by
  induction l with
  | nil => intro r h; simp [dropThroughGt] at h
  | cons c t ih =>
    intro r h
    simp only [dropThroughGt] at h
    split at h
    · exact absurd h (by simp)
    · split at h
      · cases h; simp
      · exact Nat.lt_trans (ih r h) (by simp)

/-- Replacing index `i` and then deleting index `i + 1` keeps the prefix,
puts the replacement at position `i`, and drops the old elements `i` and
`i + 1`. -/
theorem set_eraseIdx_adjacent {α : Type} (m : α) :
    ∀ (i : Nat) (l : List α), i + 1 < l.length →
      (l.set i m).eraseIdx (i + 1) = l.take i ++ [m] ++ l.drop (i + 2)
  | 0, [], h => by simp at h
  | 0, [_], h => by simp at h
  | 0, _ :: _ :: _, _ => by simp [List.set, List.eraseIdx]
  | _ + 1, [], h => by simp at h
  | i + 1, x :: t, h => by
    have ih := set_eraseIdx_adjacent m i t (by simpa using h)
    simp [List.set, List.eraseIdx, ih]

/-- A `filterMap` whose function returns `some` everywhere on the list is
a `map`. -/
theorem filterMap_all_some {α β : Type} (f : α → Option β) (g : α → β) :
    ∀ l : List α, (∀ x ∈ l, f x = some (g x)) → l.filterMap f = l.map g
  | [], _ => rfl
  | x :: t, h => by
    have hx := h x (by simp)
    have ht := filterMap_all_some f g t (fun y hy => h y (by simp [hy]))
    simp [List.filterMap, hx, ht]

/-!
## Claims
-/

/-- C4: a Stream text longer than `MAX_TEXT_OUTPUT_LENGTH = 500`
characters is summarized as exactly its first 500 characters followed by
the truncation marker, the retrieval hint and the 1-based locator; a text
of length at most 500 is emitted in full with nothing appended. -/
theorem stream_text_truncation (text : String) (c o : Nat) :
    (text.length > 500 →
      _format_text_output text c o =
        "Text: " ++ pyTake text 500 ++ "... " ++ TRUNCATION_MARKER ++ " " ++ HINT_FULL_OUTPUT
          ++ " (cell " ++ toString c ++ " [1-based], output " ++ toString o ++ " [1-based])")
    ∧ (text.length ≤ 500 → _format_text_output text c o = "Text: " ++ text) := by
  constructor <;> intro h <;>
    simp [_format_text_output, MAX_TEXT_OUTPUT_LENGTH, h, Nat.not_lt_of_le]

/-- Witness for C4 at a concrete text of length 800 in cell 2, output 1. -/
theorem stream_text_truncation_witness :
    (String.mk (List.replicate 800 'a')).length > 500 ∧
    _format_text_output (String.mk (List.replicate 800 'a')) 2 1 =
      "Text: " ++ pyTake (String.mk (List.replicate 800 'a')) 500 ++ "... " ++ TRUNCATION_MARKER
        ++ " " ++ HINT_FULL_OUTPUT ++ " (cell " ++ toString 2
        ++ " [1-based], output " ++ toString 1 ++ " [1-based])" :=
  ⟨by decide, (stream_text_truncation (String.mk (List.replicate 800 'a')) 2 1).1 (by decide)⟩

/-- C2: merging two in-bounds cells that are not `(a, a + 1)`-adjacent
fails with the "not consecutive" error, `success = false`, and the
document (the `doc` persisted on disk, here returned unchanged because
the code returns before writing) is exactly the input. -/
theorem merge_nonadjacent_fails (cells : List Cell) (i1 i2 : Int)
    (hb1l : 1 ≤ i1) (hb1r : i1 ≤ cells.length)
    (hb2l : 1 ≤ i2) (hb2r : i2 ≤ cells.length)
    (hna : i2 ≠ i1 + 1) :
    merge_cells cells i1 i2 =
      ⟨false, cells, some ("Cells are not consecutive. Cell " ++ toString i2
        ++ " is not immediately after cell " ++ toString i1 ++ ".")⟩ := by
  have hb : ¬(¬(0 ≤ i1 - 1 ∧ i1 - 1 < (cells.length : Int))
      ∨ ¬(0 ≤ i2 - 1 ∧ i2 - 1 < (cells.length : Int))) := by omega
  simp only [merge_cells]
  rw [if_neg hb, if_pos (show i2 - 1 ≠ i1 - 1 + 1 by omega)]

/-- Witness for C2: merging cells 1 and 3 of a three-cell notebook. -/
theorem merge_nonadjacent_fails_witness :
    merge_cells [new_code_cell "a", new_code_cell "b", new_code_cell "c"] 1 3 =
      ⟨false, [new_code_cell "a", new_code_cell "b", new_code_cell "c"],
       some ("Cells are not consecutive. Cell " ++ toString (3 : Int)
        ++ " is not immediately after cell " ++ toString (1 : Int) ++ ".")⟩ :=
  merge_nonadjacent_fails _ 1 3 (by decide) (by decide) (by decide) (by decide) (by decide)

/-- C3: for an in-bounds 1-based index, `edit_cell` succeeds and the
persisted document replaces only that cell: its source becomes the new
text, its kind is preserved, and its outputs become empty exactly when
the cell is a code cell (a markdown cell keeps its outputs field
untouched); all other cells are unchanged. -/
theorem edit_cell_spec (cells : List Cell) (k : Int) (newSource : String)
    (h1 : 1 ≤ k) (h2 : k ≤ cells.length) :
    (edit_cell cells k newSource).success = true ∧
    (edit_cell cells k newSource).error = none ∧
    (edit_cell cells k newSource).doc =
      cells.take (k - 1).toNat
        ++ [⟨(cells.getD (k - 1).toNat default).cell_type, newSource,
             if (cells.getD (k - 1).toNat default).cell_type == "code" then []
             else (cells.getD (k - 1).toNat default).outputs⟩]
        ++ cells.drop ((k - 1).toNat + 1) := by
  simp only [edit_cell]
  rw [if_neg (show ¬¬(0 ≤ k - 1 ∧ k - 1 < (cells.length : Int)) by omega)]
  refine ⟨rfl, rfl, ?_⟩
  rw [List.set_eq_take_cons_drop _ (show (k - 1).toNat < cells.length by omega)]
  simp

/-- Witness for C3: editing the code cell 1 of a two-cell notebook. -/
theorem edit_cell_spec_witness :
    (edit_cell [⟨"code", "old", [Output.mkStream "stdout" "out"]⟩, new_markdown_cell "m"]
        1 "new").success = true ∧
    (edit_cell [⟨"code", "old", [Output.mkStream "stdout" "out"]⟩, new_markdown_cell "m"]
        1 "new").error = none ∧
    (edit_cell [⟨"code", "old", [Output.mkStream "stdout" "out"]⟩, new_markdown_cell "m"]
        1 "new").doc =
      [⟨"code", "old", [Output.mkStream "stdout" "out"]⟩, new_markdown_cell "m"].take
          ((1 : Int) - 1).toNat
        ++ [⟨([⟨"code", "old", [Output.mkStream "stdout" "out"]⟩,
               new_markdown_cell "m"].getD ((1 : Int) - 1).toNat default).cell_type, "new",
             if ([⟨"code", "old", [Output.mkStream "stdout" "out"]⟩,
                  new_markdown_cell "m"].getD ((1 : Int) - 1).toNat default).cell_type == "code"
             then []
             else ([⟨"code", "old", [Output.mkStream "stdout" "out"]⟩,
                    new_markdown_cell "m"].getD ((1 : Int) - 1).toNat default).outputs⟩]
        ++ [⟨"code", "old", [Output.mkStream "stdout" "out"]⟩, new_markdown_cell "m"].drop
             (((1 : Int) - 1).toNat + 1) :=
  edit_cell_spec [⟨"code", "old", [Output.mkStream "stdout" "out"]⟩, new_markdown_cell "m"]
    1 "new" (by decide) (by decide)

/-- C10: when the addressed in-bounds cell is not a code cell or has no
outputs, `get_full_output` answers the "not a code cell or has no
outputs" failure for every output index (including out-of-bounds ones)
and every type hint: the output-index bounds check runs only after this
check, so no output-index OutOfBounds error is ever reported here. -/
theorem non_code_checked_before_output_bounds (cells : List Cell) (ci : Int)
    (h1 : 1 ≤ ci) (h2 : ci ≤ cells.length)
    (h3 : (cells.getD (ci - 1).toNat default).cell_type ≠ "code"
          ∨ (cells.getD (ci - 1).toNat default).outputs = []) :
    ∀ (oi : Int) (hint : Option String),
      get_full_output cells ci oi hint =
        ⟨none, none, some ("Cell " ++ toString ci
          ++ " is not a code cell or has no outputs.")⟩ := by
  intro oi hint
  simp only [get_full_output]
  rw [if_neg (show ¬¬(0 ≤ ci - 1 ∧ ci - 1 < (cells.length : Int)) by omega), if_pos h3]

/-- Witness for C10: a markdown cell queried at the wildly out-of-bounds
output index 99. -/
theorem non_code_checked_before_output_bounds_witness :
    get_full_output [new_markdown_cell "m"] 1 99 none =
      ⟨none, none, some ("Cell " ++ toString (1 : Int)
        ++ " is not a code cell or has no outputs.")⟩ :=
  non_code_checked_before_output_bounds [new_markdown_cell "m"] 1 (by decide) (by decide)
    (by decide) 99 none

/-- C9: inserting a new cell (of a valid kind) at 1-based index `k`,
`1 ≤ k ≤ length + 1`, and then deleting at index `k` succeeds and
restores the original cell sequence exactly. -/
theorem insert_delete_roundtrip (cells : List Cell) (k : Int) (kind src : String)
    (h1 : 1 ≤ k) (h2 : k ≤ cells.length + 1) (hk : kind = "code" ∨ kind = "markdown") :
    (add_cell cells k kind src).success = true ∧
    (delete_cell (add_cell cells k kind src).doc k).success = true ∧
    (delete_cell (add_cell cells k kind src).doc k).doc = cells := by
  have hb : ¬¬(0 ≤ k - 1 ∧ k - 1 ≤ (cells.length : Int)) := by omega
  have heq : (k - 1).toNat = k.toNat - 1 := by omega
  have hlen : ∀ c : Cell, (cells.insertIdx (k.toNat - 1) c).length = cells.length + 1 :=
    fun c => List.length_insertIdx (k.toNat - 1) cells (by omega)
  have hdel : ∀ c : Cell,
      delete_cell (cells.insertIdx (k.toNat - 1) c) k =
        ⟨true, cells, none⟩ := by
    intro c
    simp only [delete_cell]
    rw [if_neg (show ¬¬(0 ≤ k - 1 ∧ k - 1 < ((cells.insertIdx (k.toNat - 1) c).length : Int))
      by rw [hlen]; omega)]
    rw [heq, List.eraseIdx_insertIdx]
  rcases hk with rfl | rfl <;>
    (simp only [add_cell]; rw [if_neg hb]; simp [hdel])

/-- Witness for C9: inserting a markdown cell at index 2 of a two-cell
notebook, then deleting it. -/
theorem insert_delete_roundtrip_witness :
    (add_cell [new_code_cell "a", new_code_cell "b"] 2 "markdown" "note").success = true ∧
    (delete_cell (add_cell [new_code_cell "a", new_code_cell "b"] 2 "markdown" "note").doc
        2).success = true ∧
    (delete_cell (add_cell [new_code_cell "a", new_code_cell "b"] 2 "markdown" "note").doc
        2).doc = [new_code_cell "a", new_code_cell "b"] :=
  insert_delete_roundtrip [new_code_cell "a", new_code_cell "b"] 2 "markdown" "note"
    (by decide) (by decide) (Or.inr rfl)

/-- C1: merging the valid adjacent pair `(a, a + 1)` succeeds; the merged
cell takes the first cell's position, the second cell is removed, and the
cell count drops by one.  Two code cells merge to a code cell whose
source is the first source, one newline, the second source, with empty
outputs; if either input is a markdown cell the merged cell is a markdown
cell (with the same concatenated source). -/
theorem merge_adjacent_spec (cells : List Cell) (a : Nat)
    (h1 : 1 ≤ a) (h2 : a + 1 ≤ cells.length) :
    (merge_cells cells (a : Int) ((a : Int) + 1)).success = true ∧
    (merge_cells cells (a : Int) ((a : Int) + 1)).error = none ∧
    (merge_cells cells (a : Int) ((a : Int) + 1)).doc =
      cells.take (a - 1)
        ++ [mergedCellOf (cells.getD (a - 1) default) (cells.getD a default)]
        ++ cells.drop (a + 1) ∧
    (merge_cells cells (a : Int) ((a : Int) + 1)).doc.length = cells.length - 1 ∧
    ((cells.getD (a - 1) default).cell_type = "code" →
      (cells.getD a default).cell_type = "code" →
      mergedCellOf (cells.getD (a - 1) default) (cells.getD a default) =
        ⟨"code",
         (cells.getD (a - 1) default).source ++ "\n" ++ (cells.getD a default).source, []⟩) ∧
    (((cells.getD (a - 1) default).cell_type = "markdown"
        ∨ (cells.getD a default).cell_type = "markdown") →
      mergedCellOf (cells.getD (a - 1) default) (cells.getD a default) =
        new_markdown_cell
          ((cells.getD (a - 1) default).source ++ "\n" ++ (cells.getD a default).source)) := by
  have hb : ¬(¬(0 ≤ (a : Int) - 1 ∧ (a : Int) - 1 < (cells.length : Int))
      ∨ ¬(0 ≤ (a : Int) + 1 - 1 ∧ (a : Int) + 1 - 1 < (cells.length : Int))) := by omega
  have hcons : ¬((a : Int) + 1 - 1 ≠ (a : Int) - 1 + 1) := by omega
  have e1 : ((a : Int) - 1).toNat = a - 1 := by omega
  have e2 : ((a : Int) + 1 - 1).toNat = a := by omega
  have ea : a - 1 + 1 = a := by omega
  have hdoc : (merge_cells cells (a : Int) ((a : Int) + 1)).doc =
      cells.take (a - 1)
        ++ [mergedCellOf (cells.getD (a - 1) default) (cells.getD a default)]
        ++ cells.drop (a + 1) := by
    simp only [merge_cells]
    rw [if_neg hb, if_neg hcons]
    simp only [e1, e2]
    have := set_eraseIdx_adjacent
      (mergedCellOf (cells.getD (a - 1) default) (cells.getD a default)) (a - 1) cells
      (by omega)
    rw [ea] at this
    rw [this]
    congr 2
    omega
  refine ⟨?_, ?_, hdoc, ?_, ?_, ?_⟩
  · simp only [merge_cells]; rw [if_neg hb, if_neg hcons]
  · simp only [merge_cells]; rw [if_neg hb, if_neg hcons]
  · rw [hdoc]
    simp [List.length_take, List.length_drop]
    omega
  · intro hc1 hc2
    simp only [mergedCellOf]
    rw [if_pos (show (((cells.getD (a - 1) default).cell_type == "code")
        && ((cells.getD a default).cell_type == "code")) = true by rw [hc1, hc2]; rfl)]
  · rintro (hm | hm) <;>
      (simp only [mergedCellOf]
       rw [if_neg (show ¬((((cells.getD (a - 1) default).cell_type == "code")
          && ((cells.getD a default).cell_type == "code")) = true) by rw [hm]; simp)])

/-- Witness for C1: merging the adjacent code cells 1 and 2 of
`[Code "x=1", Code "print(x)"]`. -/
theorem merge_adjacent_spec_witness :
    (merge_cells [new_code_cell "x=1", new_code_cell "print(x)"] ((1 : Nat) : Int)
        (((1 : Nat) : Int) + 1)).success = true ∧
    (merge_cells [new_code_cell "x=1", new_code_cell "print(x)"] ((1 : Nat) : Int)
        (((1 : Nat) : Int) + 1)).error = none ∧
    (merge_cells [new_code_cell "x=1", new_code_cell "print(x)"] ((1 : Nat) : Int)
        (((1 : Nat) : Int) + 1)).doc =
      [new_code_cell "x=1", new_code_cell "print(x)"].take (1 - 1)
        ++ [mergedCellOf
              ([new_code_cell "x=1", new_code_cell "print(x)"].getD (1 - 1) default)
              ([new_code_cell "x=1", new_code_cell "print(x)"].getD 1 default)]
        ++ [new_code_cell "x=1", new_code_cell "print(x)"].drop (1 + 1) ∧
    (merge_cells [new_code_cell "x=1", new_code_cell "print(x)"] ((1 : Nat) : Int)
        (((1 : Nat) : Int) + 1)).doc.length =
      [new_code_cell "x=1", new_code_cell "print(x)"].length - 1 ∧
    (([new_code_cell "x=1", new_code_cell "print(x)"].getD (1 - 1) default).cell_type = "code" →
      ([new_code_cell "x=1", new_code_cell "print(x)"].getD 1 default).cell_type = "code" →
      mergedCellOf ([new_code_cell "x=1", new_code_cell "print(x)"].getD (1 - 1) default)
          ([new_code_cell "x=1", new_code_cell "print(x)"].getD 1 default) =
        ⟨"code",
         ([new_code_cell "x=1", new_code_cell "print(x)"].getD (1 - 1) default).source ++ "\n"
           ++ ([new_code_cell "x=1", new_code_cell "print(x)"].getD 1 default).source, []⟩) ∧
    ((([new_code_cell "x=1", new_code_cell "print(x)"].getD (1 - 1) default).cell_type
          = "markdown"
        ∨ ([new_code_cell "x=1", new_code_cell "print(x)"].getD 1 default).cell_type
          = "markdown") →
      mergedCellOf ([new_code_cell "x=1", new_code_cell "print(x)"].getD (1 - 1) default)
          ([new_code_cell "x=1", new_code_cell "print(x)"].getD 1 default) =
        new_markdown_cell
          (([new_code_cell "x=1", new_code_cell "print(x)"].getD (1 - 1) default).source
            ++ "\n"
            ++ ([new_code_cell "x=1", new_code_cell "print(x)"].getD 1 default).source)) :=
  merge_adjacent_spec [new_code_cell "x=1", new_code_cell "print(x)"] 1 (by decide) (by decide)

/-- C8: on a valid locator addressing a `display_data` / `execute_result`
output, `get_full_output` returns exactly the payload and mime type of
the spec's selection policy, with no error. -/
theorem get_full_output_selection_policy (cells : List Cell) (ci oi : Int)
    (hint : Option String) (cell : Cell) (out : Output)
    (h1 : 1 ≤ ci) (h2 : ci ≤ cells.length)
    (hcell : cell = cells.getD (ci - 1).toNat default)
    (hc : cell.cell_type = "code") (ho : cell.outputs ≠ [])
    (h3 : 1 ≤ oi) (h4 : oi ≤ cell.outputs.length)
    (hout : out = cell.outputs.getD (oi - 1).toNat default)
    (ht : out.output_type = "display_data" ∨ out.output_type = "execute_result") :
    get_full_output cells ci oi hint =
      ⟨(specSelectionPolicy out.data hint).1, (specSelectionPolicy out.data hint).2, none⟩ := by
  simp only [get_full_output]
  rw [if_neg (show ¬¬(0 ≤ ci - 1 ∧ ci - 1 < (cells.length : Int)) by omega)]
  rw [← hcell]
  rw [if_neg (show ¬(cell.cell_type ≠ "code" ∨ cell.outputs = []) by
    push_neg; exact ⟨hc, ho⟩)]
  rw [if_neg (show ¬¬(0 ≤ oi - 1 ∧ oi - 1 < (cell.outputs.length : Int)) by omega)]
  rw [← hout]
  rw [if_neg (show ¬((out.output_type == "stream") = true) by
    rcases ht with h | h <;> rw [h] <;> decide)]
  rw [if_pos (show ((out.output_type == "display_data")
      || (out.output_type == "execute_result")) = true by
    rcases ht with h | h <;> rw [h] <;> decide)]
  simp only [specSelectionPolicy]
  split_ifs <;> rfl

/-- Witness for C8: an `execute_result` output holding only `text/plain`,
fetched with no type hint. -/
theorem get_full_output_selection_policy_witness :
    get_full_output [⟨"code", "x", [Output.mkData "execute_result" [("text/plain", "42")]]⟩]
        1 1 none =
      ⟨(specSelectionPolicy [("text/plain", "42")] none).1,
       (specSelectionPolicy [("text/plain", "42")] none).2, none⟩ :=
  get_full_output_selection_policy
    [⟨"code", "x", [Output.mkData "execute_result" [("text/plain", "42")]]⟩] 1 1 none
    (⟨"code", "x", [Output.mkData "execute_result" [("text/plain", "42")]]⟩)
    (Output.mkData "execute_result" [("text/plain", "42")])
    (by decide) (by decide) (by decide) (by decide) (by decide) (by decide) (by decide)
    (by decide) (Or.inr rfl)

/-- C5 counterexample: for a code cell whose only output has the
unrecognized tag "unknown_type", the summary is the empty string, but the
rendered digest does NOT omit that output's line: it still contains the
dash line `"- \n"` emitted for it (shown below inside the full digest),
so "the digest contains no line for it" fails. -/
theorem unknown_output_line_not_omitted :
    outputSummary ⟨"unknown_type", "", "", [], "", "", []⟩ 1 1 = "" ∧
    get_formatted_content [⟨"code", "x", [⟨"unknown_type", "", "", [], "", "", []⟩]⟩] =
      "[[Cell 1 - Code]]\n```\nx\n```\n[[Cell 1 - Output]]\n- \n\n" ∧
    strIn "- \n" "[[Cell 1 - Code]]\n```\nx\n```\n[[Cell 1 - Output]]\n- \n\n" = true := by
  refine ⟨rfl, by decide, by decide⟩

/-- C5 (amended): an output with an unrecognized output-type tag yields
an empty summary string, and the renderer still emits its line — the
line appended for such an output is exactly `"- \n"` (dash, space,
newline), not omitted. -/
theorem unknown_output_empty_summary (output : Output) (i j : Nat)
    (h : output.output_type ∉ ["stream", "display_data", "execute_result", "error"]) :
    outputSummary output i j = "" ∧ outputLine output i j = "- \n" := by
  simp only [List.mem_cons, List.mem_singleton, not_or] at h
  obtain ⟨h1, h2, h3, h4⟩ := h
  have hs : outputSummary output i j = "" := by
    simp only [outputSummary]
    rw [if_neg (show ¬((output.output_type == "stream") = true) by simp [h1])]
    rw [if_neg (show ¬(((output.output_type == "display_data")
        || (output.output_type == "execute_result")) = true) by simp [h2, h3])]
    rw [if_neg (show ¬((output.output_type == "error") = true) by simp [h4])]
  refine ⟨hs, ?_⟩
  rw [outputLine, hs]
  decide

/-- Witness for the amended C5 at the concrete tag "weird". -/
theorem unknown_output_empty_summary_witness :
    outputSummary ⟨"weird", "", "", [], "", "", []⟩ 2 3 = "" ∧
    outputLine ⟨"weird", "", "", [], "", "", []⟩ 2 3 = "- \n" :=
  unknown_output_empty_summary ⟨"weird", "", "", [], "", "", []⟩ 2 3 (by decide)

/-- C6 counterexample: a `display_data` output with no image payload
whose HTML payload contains the mixed-case table tag `<Table` is NOT
delegated to the table extractor: the formatter falls through to the
`text/plain` branch and returns "Text: plain", which differs from what
the table extractor would produce for that payload. -/
theorem mixed_case_table_not_delegated :
    outputSummary (Output.mkData "display_data"
        [("text/html", "<Table><tr><td>x</td></tr></Table>"), ("text/plain", "plain")]) 1 1 =
      "Text: plain" ∧
    outputSummary (Output.mkData "display_data"
        [("text/html", "<Table><tr><td>x</td></tr></Table>"), ("text/plain", "plain")]) 1 1 ≠
      _format_table_output "<Table><tr><td>x</td></tr></Table>" 1 1 := by
  exact ⟨by decide, by decide⟩

/-- C6 (amended): the delegation happens exactly for the two casings the
code tests: a Result output without an image payload whose `text/html`
payload contains `"<table"` or `"<TABLE"` as an exact substring is
handed to the table extractor (mixed casings such as `<Table` are not). -/
theorem table_delegation_exact_casings (output : Output) (i j : Nat) (html : String)
    (hty : output.output_type = "display_data" ∨ output.output_type = "execute_result")
    (himg : hasKey output.data "image/png" = false)
    (hhtml : output.data.lookup "text/html" = some html)
    (htab : (strIn "<table" html || strIn "<TABLE" html) = true) :
    outputSummary output i j = _format_table_output html i j := by
  have hgk : getKey output.data "text/html" = html := by simp [getKey, hhtml]
  have hhk : hasKey output.data "text/html" = true := by simp [hasKey, hhtml]
  simp only [outputSummary]
  rw [if_neg (show ¬((output.output_type == "stream") = true) by
    rcases hty with h | h <;> rw [h] <;> decide)]
  rw [if_pos (show ((output.output_type == "display_data")
      || (output.output_type == "execute_result")) = true by
    rcases hty with h | h <;> rw [h] <;> decide)]
  rw [if_neg (show ¬(hasKey output.data "image/png" = true) by simp [himg])]
  rw [if_pos (show (hasKey output.data "text/html"
      && (strIn "<table" (getKey output.data "text/html")
          || strIn "<TABLE" (getKey output.data "text/html"))) = true by
    rw [hgk, hhk, htab]; rfl)]
  rw [hgk]

/-- Witness for the amended C6: an all-lowercase `<table>` payload is
delegated. -/
theorem table_delegation_exact_casings_witness :
    outputSummary (Output.mkData "execute_result" [("text/html", "<table></table>")]) 1 1 =
      _format_table_output "<table></table>" 1 1 :=
  table_delegation_exact_casings
    (Output.mkData "execute_result" [("text/html", "<table></table>")]) 1 1 "<table></table>"
    (Or.inr rfl) (by decide) (by decide) (by decide)

/-- C7: whenever the extractor's header scan recognizes a header section
with at least one header cell and its body scan recognizes a body section
whose rows (each with at least one data cell among the first
`MAX_TABLE_ROWS`) it collects as `trs`, the emitted table consists of the
header pipe-row, the dash separator row, exactly the first
`MAX_TABLE_ROWS = 5` data pipe-rows (later rows contribute no content),
and the truncation marker line exactly when more than 5 rows were
counted — in particular 8 body rows produce 5 data rows plus the marker,
and at most 5 body rows produce no marker. -/
theorem table_extractor_row_bound (html : String) (ci oj : Nat)
    (header_content : String) (ths : List String) (body_content : String) (trs : List String)
    (hhd : searchLazyCapture "<thead" "</thead>" html = some header_content)
    (hth : findallLazy "<th" "</th>" header_content = ths)
    (hths : ths ≠ [])
    (hbd : searchLazyCapture "<tbody" "</tbody>" html = some body_content)
    (htr : findallLazy "<tr" "</tr>" body_content = trs)
    (htd : ∀ tr ∈ trs.take MAX_TABLE_ROWS, findallLazy "<td" "</td>" tr ≠ []) :
    _format_table_output html ci oj =
      "Table (HTML): \n```markdown\n"
        ++ String.intercalate "\n"
            ([pipeRow ths, dashSeparatorRow ths.length]
              ++ (trs.take MAX_TABLE_ROWS).map
                  (fun tr => pipeRow (findallLazy "<td" "</td>" tr)))
        ++ (if trs.length > MAX_TABLE_ROWS then "\n... " ++ TRUNCATION_MARKER else "")
        ++ "\n```\n" ++ HINT_FULL_OUTPUT ++ " (cell " ++ toString ci
        ++ " [1-based], output " ++ toString oj ++ " [1-based])" := by
  have hfm : (trs.take MAX_TABLE_ROWS).filterMap
      (fun tr =>
        let td_matches := findallLazy "<td" "</td>" tr
        if td_matches.isEmpty then none else some (pipeRow td_matches)) =
      (trs.take MAX_TABLE_ROWS).map (fun tr => pipeRow (findallLazy "<td" "</td>" tr)) := by
    refine filterMap_all_some _ _ _ (fun tr hmem => ?_)
    have hne := htd tr hmem
    simp only []
    rw [if_neg (by simpa using hne)]
  simp only [_format_table_output, hhd, hbd, hth, htr, hfm]
  rw [if_neg (show ¬(ths.isEmpty = true) by simpa using hths)]
  rw [if_neg (show ¬(([pipeRow ths, dashSeparatorRow ths.length]
      ++ (trs.take MAX_TABLE_ROWS).map
          (fun tr => pipeRow (findallLazy "<td" "</td>" tr))).isEmpty = true) by simp)]
  by_cases hc : trs.length > MAX_TABLE_ROWS
  · rw [if_pos hc, if_pos hc]
    simp [String.append_assoc]
  · rw [if_neg hc, if_neg hc]
    simp [String.append_assoc]

/-- Witness for C7: the concrete 8-row table `tableHtml8` yields the
header row, the separator, exactly the first five data rows, and the
truncation marker line. -/
theorem table_extractor_row_bound_witness :
    _format_table_output tableHtml8 2 1 =
      "Table (HTML): \n```markdown\n"
        ++ String.intercalate "\n"
            ([pipeRow ["A", "B"], dashSeparatorRow (["A", "B"] : List String).length]
              ++ (tableHtml8Rows.take MAX_TABLE_ROWS).map
                  (fun tr => pipeRow (findallLazy "<td" "</td>" tr)))
        ++ (if tableHtml8Rows.length > MAX_TABLE_ROWS then "\n... " ++ TRUNCATION_MARKER
            else "")
        ++ "\n```\n" ++ HINT_FULL_OUTPUT ++ " (cell " ++ toString 2
        ++ " [1-based], output " ++ toString 1 ++ " [1-based])" :=
  table_extractor_row_bound tableHtml8 2 1 "<tr><th>A</th><th>B</th></tr>" ["A", "B"]
    ("<tr><td>a1</td><td>b1</td></tr><tr><td>a2</td><td>b2</td></tr>"
      ++ "<tr><td>a3</td><td>b3</td></tr><tr><td>a4</td><td>b4</td></tr>"
      ++ "<tr><td>a5</td><td>b5</td></tr><tr><td>a6</td><td>b6</td></tr>"
      ++ "<tr><td>a7</td><td>b7</td></tr><tr><td>a8</td><td>b8</td></tr>")
    tableHtml8Rows (by decide) (by decide) (by decide) (by decide) (by decide) (by decide)
